import Mathlib

/-!
Verification development for a thin Python façade over a native BitTorrent
engine library (libtorrent).  The modelled sources are src/session.py and
src/torrent_info.py.

Modelling conventions:
* Engine-side objects are records of exactly the attribute values the façade
  reads.  Attributes that the Python code reads through getattr with a
  default are modelled as Option fields (none = attribute absent).
* Engine calls that can raise are modelled with Except; a Python exception
  does not roll back attribute assignments already performed, so stateful
  façade methods report their post-state in both outcomes.
* Python ints are modelled by Int (arbitrary precision in both languages);
  int(.) applied to an int is the identity.
* Python floats are only ever copied by this code (never computed with), so
  they are modelled by an uninterpreted type with a distinguished 0.0.
* Paths in torrent metadata use the POSIX separator, so os.path.basename(p)
  is the suffix of p after the last slash.
-/

namespace Pytorrent

/-- Opaque engine-side Python object (add-torrent parameters, settings packs,
ip filters, saved-state blobs, torrent handles, DHT nodes ...): the façade
only passes these through and never inspects them. -/
structure PyObj where
  oid : Nat
deriving DecidableEq, Repr

/-- Opaque exception object raised by the native engine. -/
structure EngErr where
  eid : Nat
deriving DecidableEq, Repr

/-- Python float values as this code observes them: only copied, or
substituted by the literal 0.0 default, never computed with, so they are
modelled abstractly, with zero standing for the literal 0.0. -/
inductive PyFloat where
  | zero
  | val (n : Nat)
deriving DecidableEq, Repr

/-- A file entry of the engine's torrent-descriptor report, as read by
TorrentInfo.parse_file_info: path, size and offset are accessed directly
(always present on engine file entries); the remaining attributes are read
through getattr with a default and may be absent. -/
structure EngFileEntry where
  path : String
  size : Int
  offset : Int
  mtime : Option PyFloat
  executable_attribute : Option Bool
  hidden_attribute : Option Bool
  pad_file : Option Bool
  symlink_attribute : Option Bool
  symlink_path : Option String
deriving DecidableEq, Repr

/-- A tracker entry of the engine's report, as read by
TorrentInfo.parse_tracker_info: every attribute is read through getattr
with a default and may be absent. -/
structure EngTrackerEntry where
  complete_sent : Option Bool
  fail_limit : Option Int
  fails : Option Int
  message : Option String
  min_announce : Option Int
  next_announce : Option Int
  scrape_complete : Option Int
  scrape_downloaded : Option Int
  scrape_incomplete : Option Int
  source : Option String
  tier : Option Int
  trackerid : Option String
  updating : Option Bool
  url : Option String
  verified : Option Bool
deriving DecidableEq, Repr

/-- The engine object returned by lt.torrent_info(path), restricted to the
accessors TorrentInfo.create_torrent_info invokes on it. -/
structure EngTorrentInfo where
  name : String
  comment : String
  creation_date : Int
  creator : String
  files : List EngFileEntry
  is_i2p : Bool
  is_merkle_torrent : Bool
  is_valid : Bool
  metadata_size : Int
  nodes : List (String × Int)
  num_files : Int
  num_pieces : Int
  piece_length : Int
  priv : Bool
  total_size : Int
  trackers : List EngTrackerEntry
  web_seeds : List String
deriving DecidableEq, Repr

/-- The behaviour of the engine's torrent-descriptor constructor
lt.torrent_info: given a path it either raises or returns a report. -/
abbrev LtEngine := String → Except EngErr EngTorrentInfo

/-- Python dictionary / primitive values, the codomain of
dataclasses.asdict as used by the as_dict methods. -/
inductive PyVal where
  | str (s : String)
  | int (n : Int)
  | boolv (b : Bool)
  | float (x : PyFloat)
  | list (xs : List PyVal)
  | pair (a b : PyVal)
  | dict (kvs : List (String × PyVal))
deriving Repr

mutual

/-- Python str() rendering of asdict output, used only by the model of
TorrentInfo.__str__.  Quote style and float formatting are fixed to one
rendering; no property below depends on the rendering details. -/
def strOfPyVal : PyVal → String
  | PyVal.str s => String.append (String.append "'" s) "'"
  | PyVal.int n => toString n
  | PyVal.boolv b => if b then "True" else "False"
  | PyVal.float PyFloat.zero => "0.0"
  | PyVal.float (PyFloat.val n) => String.append (toString n) ".0"
  | PyVal.pair a b => "(" ++ strOfPyVal a ++ ", " ++ strOfPyVal b ++ ")"
  | PyVal.list xs => "[" ++ String.intercalate ", " (strOfPyValList xs) ++ "]"
  | PyVal.dict kvs => "\x7b" ++ String.intercalate ", " (strOfPyValKVs kvs) ++ "\x7d"

/-- Renders the elements of a Python list. -/
def strOfPyValList : List PyVal → List String
  | [] => []
  | v :: vs => strOfPyVal v :: strOfPyValList vs

/-- Renders the key/value entries of a Python dict. -/
def strOfPyValKVs : List (String × PyVal) → List String
  | [] => []
  | (k, v) :: vs => ("'" ++ k ++ "': " ++ strOfPyVal v) :: strOfPyValKVs vs

end

/-- os.path.basename for POSIX paths: the suffix after the last slash. -/
def basename (p : String) : String :=
  String.mk (p.data.foldl (fun acc c => if c = '/' then [] else acc ++ [c]) [])

/-- The FileInfo dataclass of torrent_info.py.  Its fields are declared
Optional with default None in the source, but the façade's single
construction site (parse_file_info) always supplies every field, so the
fields are modelled with their filled types. -/
structure FileInfo where
  file_name : String
  size : Int
  offset : Int
  mtime : PyFloat
  executable_attribute : Bool
  hidden_attribute : Bool
  pad_file : Bool
  path : String
  symlink_attribute : Bool
  symlink_path : String
deriving DecidableEq, Repr

/-- FileInfo.as_dict = dataclasses.asdict(self), preserving field order. -/
def FileInfo.as_dict (f : FileInfo) : PyVal :=
  PyVal.dict
    [("file_name", PyVal.str f.file_name),
     ("size", PyVal.int f.size),
     ("offset", PyVal.int f.offset),
     ("mtime", PyVal.float f.mtime),
     ("executable_attribute", PyVal.boolv f.executable_attribute),
     ("hidden_attribute", PyVal.boolv f.hidden_attribute),
     ("pad_file", PyVal.boolv f.pad_file),
     ("path", PyVal.str f.path),
     ("symlink_attribute", PyVal.boolv f.symlink_attribute),
     ("symlink_path", PyVal.str f.symlink_path)]

/-- The TrackerInfo dataclass of torrent_info.py (same convention as
FileInfo: the single construction site fills every field). -/
structure TrackerInfo where
  complete_sent : Bool
  fail_limit : Int
  fails : Int
  message : String
  min_announce : Int
  next_announce : Int
  scrape_complete : Int
  scrape_downloaded : Int
  scrape_incomplete : Int
  source : String
  tier : Int
  trackerid : String
  updating : Bool
  url : String
  verified : Bool
deriving DecidableEq, Repr

/-- TrackerInfo.as_dict = dataclasses.asdict(self), preserving field order. -/
def TrackerInfo.as_dict (t : TrackerInfo) : PyVal :=
  PyVal.dict
    [("complete_sent", PyVal.boolv t.complete_sent),
     ("fail_limit", PyVal.int t.fail_limit),
     ("fails", PyVal.int t.fails),
     ("message", PyVal.str t.message),
     ("min_announce", PyVal.int t.min_announce),
     ("next_announce", PyVal.int t.next_announce),
     ("scrape_complete", PyVal.int t.scrape_complete),
     ("scrape_downloaded", PyVal.int t.scrape_downloaded),
     ("scrape_incomplete", PyVal.int t.scrape_incomplete),
     ("source", PyVal.str t.source),
     ("tier", PyVal.int t.tier),
     ("trackerid", PyVal.str t.trackerid),
     ("updating", PyVal.boolv t.updating),
     ("url", PyVal.str t.url),
     ("verified", PyVal.boolv t.verified)]

/-- The Info dataclass of torrent_info.py (same convention: the single
construction site, create_torrent_info, fills every field). -/
structure Info where
  name : String
  comment : String
  creation_date : Int
  creator : String
  files_list : List FileInfo
  is_i2p : Bool
  is_merkle_torrent : Bool
  is_valid : Bool
  metadata_size : Int
  nodes : List (String × Int)
  num_files : Int
  num_pieces : Int
  piece_length : Int
  priv : Bool
  total_size : Int
  trackers : List TrackerInfo
  web_seeds : List String
deriving DecidableEq, Repr

/-- Info.as_dict = dataclasses.asdict(self): nested dataclasses become
nested dicts, lists are converted elementwise, tuples stay tuples. -/
def Info.as_dict (i : Info) : PyVal :=
  PyVal.dict
    [("name", PyVal.str i.name),
     ("comment", PyVal.str i.comment),
     ("creation_date", PyVal.int i.creation_date),
     ("creator", PyVal.str i.creator),
     ("files_list", PyVal.list (i.files_list.map FileInfo.as_dict)),
     ("is_i2p", PyVal.boolv i.is_i2p),
     ("is_merkle_torrent", PyVal.boolv i.is_merkle_torrent),
     ("is_valid", PyVal.boolv i.is_valid),
     ("metadata_size", PyVal.int i.metadata_size),
     ("nodes", PyVal.list (i.nodes.map (fun n => PyVal.pair (PyVal.str n.1) (PyVal.int n.2)))),
     ("num_files", PyVal.int i.num_files),
     ("num_pieces", PyVal.int i.num_pieces),
     ("piece_length", PyVal.int i.piece_length),
     ("priv", PyVal.boolv i.priv),
     ("total_size", PyVal.int i.total_size),
     ("trackers", PyVal.list (i.trackers.map TrackerInfo.as_dict)),
     ("web_seeds", PyVal.list (i.web_seeds.map PyVal.str))]

/-- The attribute state of a TorrentInfo façade instance: the stored path
and the parse performed at construction (self._info).  The stored
libtorrent module (self._lt) is passed to each method as an explicit
LtEngine argument, representing the engine's behaviour at call time. -/
structure TorrentInfoState where
  _path : String
  _info : EngTorrentInfo
deriving DecidableEq, Repr

/-- TorrentInfo.__init__(path, libtorrent): stores the path and performs an
initial parse self._info = lt.torrent_info(path); an engine exception
propagates unchanged to the caller. -/
def TorrentInfo.mk (lt : LtEngine) (path : String) : Except EngErr TorrentInfoState :=
  match lt path with
  | Except.error e => Except.error e
  | Except.ok i => Except.ok { _path := path, _info := i }

/-- TorrentInfo.parse_tracker_info(torrent_info): one TrackerInfo per
engine tracker entry, in order, each field read through getattr with its
default. -/
def TorrentInfo.parse_tracker_info (torrent_info : EngTorrentInfo) : List TrackerInfo :=
  torrent_info.trackers.map (fun tracker =>
    { complete_sent := tracker.complete_sent.getD false
      fail_limit := tracker.fail_limit.getD 0
      fails := tracker.fails.getD 0
      message := tracker.message.getD ""
      min_announce := tracker.min_announce.getD 0
      next_announce := tracker.next_announce.getD 0
      scrape_complete := tracker.scrape_complete.getD 0
      scrape_downloaded := tracker.scrape_downloaded.getD 0
      scrape_incomplete := tracker.scrape_incomplete.getD 0
      source := tracker.source.getD ""
      tier := tracker.tier.getD 0
      trackerid := tracker.trackerid.getD ""
      updating := tracker.updating.getD false
      url := tracker.url.getD ""
      verified := tracker.verified.getD false })

/-- TorrentInfo.parse_file_info(torrent_info): one FileInfo per engine file
entry, in order; file_name = os.path.basename(f.path), path/size/offset are
copied directly, the rest is read through getattr with its default. -/
def TorrentInfo.parse_file_info (torrent_info : EngTorrentInfo) : List FileInfo :=
  torrent_info.files.map (fun f =>
    { file_name := basename f.path
      size := f.size
      offset := f.offset
      mtime := f.mtime.getD PyFloat.zero
      executable_attribute := f.executable_attribute.getD false
      hidden_attribute := f.hidden_attribute.getD false
      pad_file := f.pad_file.getD false
      path := f.path
      symlink_attribute := f.symlink_attribute.getD false
      symlink_path := f.symlink_path.getD "" })

/-- TorrentInfo.create_torrent_info: parses the stored path anew via
torrent_info = self._lt.torrent_info(self._path) and builds the Info record
from that fresh report; an engine exception propagates. -/
def TorrentInfo.create_torrent_info (lt : LtEngine) (self : TorrentInfoState) : Except EngErr Info :=
  match lt self._path with
  | Except.error e => Except.error e
  | Except.ok torrent_info => Except.ok
      { name := torrent_info.name
        comment := torrent_info.comment
        creation_date := torrent_info.creation_date
        creator := torrent_info.creator
        files_list := TorrentInfo.parse_file_info torrent_info
        is_i2p := torrent_info.is_i2p
        is_merkle_torrent := torrent_info.is_merkle_torrent
        is_valid := torrent_info.is_valid
        metadata_size := torrent_info.metadata_size
        nodes := torrent_info.nodes
        num_files := torrent_info.num_files
        num_pieces := torrent_info.num_pieces
        piece_length := torrent_info.piece_length
        priv := torrent_info.priv
        total_size := torrent_info.total_size
        trackers := TorrentInfo.parse_tracker_info torrent_info
        web_seeds := torrent_info.web_seeds }

/-- TorrentInfo.info_as_dict = self.create_torrent_info().as_dict(). -/
def TorrentInfo.info_as_dict (lt : LtEngine) (self : TorrentInfoState) : Except EngErr PyVal :=
  match TorrentInfo.create_torrent_info lt self with
  | Except.error e => Except.error e
  | Except.ok i => Except.ok (Info.as_dict i)

/-- TorrentInfo.__str__ = str(self.info_as_dict()). -/
def TorrentInfo.str (lt : LtEngine) (self : TorrentInfoState) : Except EngErr String :=
  match TorrentInfo.info_as_dict lt self with
  | Except.error e => Except.error e
  | Except.ok d => Except.ok (strOfPyVal d)

/-- TorrentInfo.__call__ = self.create_torrent_info(). -/
def TorrentInfo.call (lt : LtEngine) (self : TorrentInfoState) : Except EngErr Info :=
  TorrentInfo.create_torrent_info lt self

/-- The result-producing operations of the TorrentInfo façade. -/
inductive TIOp where
  | create
  | as_dict
  | strv
  | callv
deriving DecidableEq, Repr

/-- The value an operation of the TorrentInfo façade hands back. -/
inductive TIResult where
  | infoRes (i : Info)
  | dictRes (d : PyVal)
  | strRes (s : String)
  | errRes (e : EngErr)
deriving Repr

/-- One façade operation as a transition on the TorrentInfo attribute
state: the returned state is the attribute state after the call.  None of
the Python method bodies assigns to self or to a field of a produced
record, which is why every branch returns self unchanged. -/
def TorrentInfo.run (lt : LtEngine) (self : TorrentInfoState) : TIOp → TorrentInfoState × TIResult
  | TIOp.create =>
      (self, match TorrentInfo.create_torrent_info lt self with
             | Except.error e => TIResult.errRes e
             | Except.ok i => TIResult.infoRes i)
  | TIOp.as_dict =>
      (self, match TorrentInfo.info_as_dict lt self with
             | Except.error e => TIResult.errRes e
             | Except.ok d => TIResult.dictRes d)
  | TIOp.strv =>
      (self, match TorrentInfo.str lt self with
             | Except.error e => TIResult.errRes e
             | Except.ok s => TIResult.strRes s)
  | TIOp.callv =>
      (self, match TorrentInfo.call lt self with
             | Except.error e => TIResult.errRes e
             | Except.ok i => TIResult.infoRes i)

/-- An engine session object (lt.session): the model records the
listen_interfaces configuration string it was constructed from, which is
the only aspect of the constructor argument session.py determines. -/
structure EngSession where
  listen_interfaces_config : String
deriving DecidableEq, Repr

/-- The engine constructor lt.session with the configuration dictionary
single entry listen_interfaces mapped to s. -/
def lt_session (s : String) : EngSession :=
  { listen_interfaces_config := s }

/-- The attribute state of a Session façade instance, exactly the fields
assigned in Session.__init__ (the stored libtorrent module self._lt is
represented by the engine behaviour passed to each method). -/
structure SessionState where
  _user_agent : String
  _listen_interfaces : String
  _port : Int
  _download_rate_limit : Int
  _upload_rate_limit : Int
  _session : EngSession
deriving DecidableEq, Repr

/-- An engine-session method invocation, with the argument values the
façade hands over; covers the engine calls made by the modelled Session
methods. -/
inductive EngCall where
  | set_download_rate_limit (rate : Int)
  | set_upload_rate_limit (rate : Int)
  | pause
  | resume
  | start_dht
  | stop_dht
  | start_lsd
  | stop_lsd
  | start_natpmp
  | start_upnp
  | load_state (state : PyObj)
  | apply_settings (settings : PyObj)
  | add_dht_node (node : PyObj)
  | set_ip_filter (ip_filter : PyObj)
  | add_torrent (torrent_info : PyObj)
deriving DecidableEq, Repr

/-- The behaviour of the underlying engine session: each invocation either
raises an exception or returns some engine object (void engine methods
return Python None, also just an object here). -/
abbrev EngBeh := EngCall → Except EngErr PyObj

/-- The full observable outcome of one Session façade method: the attribute
state afterwards (attribute assignments survive an exception in Python),
the engine calls issued in order, and the returned value or the propagated
exception. -/
structure SessionStep (α : Type) where
  state : SessionState
  calls : List EngCall
  result : Except EngErr α

/-- Session.__init__(libtorrent, user_agent, listen_interfaces, port,
download_rate_limit, upload_rate_limit, session): stores each argument in
the matching attribute and sets self._session = session or
self.create_session().  None is falsy and engine session objects are
truthy, so the none case inlines create_session on the freshly stored
listen interfaces and port. -/
def Session.init (user_agent listen_interfaces : String)
    (port download_rate_limit upload_rate_limit : Int)
    (session : Option EngSession) : SessionState :=
  match session with
  | some s =>
      { _user_agent := user_agent
        _listen_interfaces := listen_interfaces
        _port := port
        _download_rate_limit := download_rate_limit
        _upload_rate_limit := upload_rate_limit
        _session := s }
  | none =>
      { _user_agent := user_agent
        _listen_interfaces := listen_interfaces
        _port := port
        _download_rate_limit := download_rate_limit
        _upload_rate_limit := upload_rate_limit
        _session := lt_session (listen_interfaces ++ ":" ++ toString port) }

/-- Session.create_session: assigns self._session =
lt.session({'listen_interfaces': f'{self._listen_interfaces}:{self._port}'})
and returns the created engine session. -/
def Session.create_session (self : SessionState) : SessionState × EngSession :=
  let s := lt_session (self._listen_interfaces ++ ":" ++ toString self._port)
  ({ self with _session := s }, s)

/-- Session.set_download_limit(rate): assigns self._download_rate_limit =
int(-1 if rate == 0 else (1 if rate == -1 else rate * 1024)), then calls
the engine set_download_rate_limit with the stored value and returns it. -/
def Session.set_download_limit (beh : EngBeh) (self : SessionState) (rate : Int) : SessionStep Int :=
  let r : Int := if rate = 0 then -1 else if rate = -1 then 1 else rate * 1024
  let self1 := { self with _download_rate_limit := r }
  match beh (EngCall.set_download_rate_limit r) with
  | Except.error e =>
      { state := self1, calls := [EngCall.set_download_rate_limit r], result := Except.error e }
  | Except.ok _ =>
      { state := self1, calls := [EngCall.set_download_rate_limit r], result := Except.ok r }

/-- Session.set_upload_limit(rate): assigns self._upload_rate_limit =
int(-1 if rate == 0 else (1 if rate == -1 else rate * 1024)), then calls
the engine set_upload_rate_limit with the stored value and returns it. -/
def Session.set_upload_limit (beh : EngBeh) (self : SessionState) (rate : Int) : SessionStep Int :=
  let r : Int := if rate = 0 then -1 else if rate = -1 then 1 else rate * 1024
  let self1 := { self with _upload_rate_limit := r }
  match beh (EngCall.set_upload_rate_limit r) with
  | Except.error e =>
      { state := self1, calls := [EngCall.set_upload_rate_limit r], result := Except.error e }
  | Except.ok _ =>
      { state := self1, calls := [EngCall.set_upload_rate_limit r], result := Except.ok r }

/-- Session.pause: self._session.pause(); return True. -/
def Session.pause (beh : EngBeh) (self : SessionState) : SessionStep Bool :=
  match beh EngCall.pause with
  | Except.error e => { state := self, calls := [EngCall.pause], result := Except.error e }
  | Except.ok _ => { state := self, calls := [EngCall.pause], result := Except.ok true }

/-- Session.resume: self._session.resume(); return True. -/
def Session.resume (beh : EngBeh) (self : SessionState) : SessionStep Bool :=
  match beh EngCall.resume with
  | Except.error e => { state := self, calls := [EngCall.resume], result := Except.error e }
  | Except.ok _ => { state := self, calls := [EngCall.resume], result := Except.ok true }

/-- Session.start_dht: self._session.start_dht(); return True. -/
def Session.start_dht (beh : EngBeh) (self : SessionState) : SessionStep Bool :=
  match beh EngCall.start_dht with
  | Except.error e => { state := self, calls := [EngCall.start_dht], result := Except.error e }
  | Except.ok _ => { state := self, calls := [EngCall.start_dht], result := Except.ok true }

/-- Session.stop_dht: self._session.stop_dht(); return True. -/
def Session.stop_dht (beh : EngBeh) (self : SessionState) : SessionStep Bool :=
  match beh EngCall.stop_dht with
  | Except.error e => { state := self, calls := [EngCall.stop_dht], result := Except.error e }
  | Except.ok _ => { state := self, calls := [EngCall.stop_dht], result := Except.ok true }

/-- Session.start_lsd: self._session.start_lsd(); return True. -/
def Session.start_lsd (beh : EngBeh) (self : SessionState) : SessionStep Bool :=
  match beh EngCall.start_lsd with
  | Except.error e => { state := self, calls := [EngCall.start_lsd], result := Except.error e }
  | Except.ok _ => { state := self, calls := [EngCall.start_lsd], result := Except.ok true }

/-- Session.stop_lsd: self._session.stop_lsd(); return True. -/
def Session.stop_lsd (beh : EngBeh) (self : SessionState) : SessionStep Bool :=
  match beh EngCall.stop_lsd with
  | Except.error e => { state := self, calls := [EngCall.stop_lsd], result := Except.error e }
  | Except.ok _ => { state := self, calls := [EngCall.stop_lsd], result := Except.ok true }

/-- Session.start_natpmp: self._session.start_natpmp(); return True. -/
def Session.start_natpmp (beh : EngBeh) (self : SessionState) : SessionStep Bool :=
  match beh EngCall.start_natpmp with
  | Except.error e => { state := self, calls := [EngCall.start_natpmp], result := Except.error e }
  | Except.ok _ => { state := self, calls := [EngCall.start_natpmp], result := Except.ok true }

/-- Session.start_upnp: self._session.start_upnp(); return True. -/
def Session.start_upnp (beh : EngBeh) (self : SessionState) : SessionStep Bool :=
  match beh EngCall.start_upnp with
  | Except.error e => { state := self, calls := [EngCall.start_upnp], result := Except.error e }
  | Except.ok _ => { state := self, calls := [EngCall.start_upnp], result := Except.ok true }

/-- Session.load_state(state): self._session.load_state(state); return True. -/
def Session.load_state (beh : EngBeh) (self : SessionState) (state : PyObj) : SessionStep Bool :=
  match beh (EngCall.load_state state) with
  | Except.error e => { state := self, calls := [EngCall.load_state state], result := Except.error e }
  | Except.ok _ => { state := self, calls := [EngCall.load_state state], result := Except.ok true }

/-- Session.apply_settings(settings): self._session.apply_settings(settings);
return True. -/
def Session.apply_settings (beh : EngBeh) (self : SessionState) (settings : PyObj) : SessionStep Bool :=
  match beh (EngCall.apply_settings settings) with
  | Except.error e => { state := self, calls := [EngCall.apply_settings settings], result := Except.error e }
  | Except.ok _ => { state := self, calls := [EngCall.apply_settings settings], result := Except.ok true }

/-- Session.add_dht_node(node): self._session.add_dht_node(node); return True. -/
def Session.add_dht_node (beh : EngBeh) (self : SessionState) (node : PyObj) : SessionStep Bool :=
  match beh (EngCall.add_dht_node node) with
  | Except.error e => { state := self, calls := [EngCall.add_dht_node node], result := Except.error e }
  | Except.ok _ => { state := self, calls := [EngCall.add_dht_node node], result := Except.ok true }

/-- Session.set_ip_filter(ip_filter): self._session.set_ip_filter(ip_filter);
return True. -/
def Session.set_ip_filter (beh : EngBeh) (self : SessionState) (ip_filter : PyObj) : SessionStep Bool :=
  match beh (EngCall.set_ip_filter ip_filter) with
  | Except.error e => { state := self, calls := [EngCall.set_ip_filter ip_filter], result := Except.error e }
  | Except.ok _ => { state := self, calls := [EngCall.set_ip_filter ip_filter], result := Except.ok true }

/-- Session.add_torrent(torrent_info): return
self._session.add_torrent(torrent_info), a torrent handle; nothing is
caught, stored, or modified. -/
def Session.add_torrent (beh : EngBeh) (self : SessionState) (torrent_info : PyObj) : SessionStep PyObj :=
  match beh (EngCall.add_torrent torrent_info) with
  | Except.error e => { state := self, calls := [EngCall.add_torrent torrent_info], result := Except.error e }
  | Except.ok h => { state := self, calls := [EngCall.add_torrent torrent_info], result := Except.ok h }

/-- The rate mapping both set_download_limit and set_upload_limit apply
before storing and forwarding: int(-1 if rate == 0 else (1 if rate == -1
else rate * 1024)). -/
def limit_arg (rate : Int) : Int :=
  if rate = 0 then -1 else if rate = -1 then 1 else rate * 1024

/- Concrete engine data used by witnesses and counterexamples. -/

/-- A concrete opaque engine object. -/
def obj0 : PyObj := { oid := 0 }

/-- An engine behaviour whose every call returns normally. -/
def behOk : EngBeh := fun _ => Except.ok obj0

/-- A Session built with the documented defaults and no pre-existing
engine session. -/
def sess0 : SessionState :=
  Session.init "Python client v1.0.0" "0.0.0.0" 6881 0 0 none

/-- A file entry whose optional attributes are all absent and whose path
has a directory component. -/
def fileA : EngFileEntry :=
  { path := "a/b.txt", size := 5, offset := 0, mtime := none,
    executable_attribute := none, hidden_attribute := none, pad_file := none,
    symlink_attribute := none, symlink_path := none }

/-- A file entry with several optional attributes present. -/
def fileB : EngFileEntry :=
  { path := "movies/cam.mkv", size := 7, offset := 5, mtime := some (PyFloat.val 3),
    executable_attribute := some true, hidden_attribute := none, pad_file := none,
    symlink_attribute := none, symlink_path := some "movies/orig.mkv" }

/-- A tracker entry with every attribute absent. -/
def trackerA : EngTrackerEntry :=
  { complete_sent := none, fail_limit := none, fails := none, message := none,
    min_announce := none, next_announce := none, scrape_complete := none,
    scrape_downloaded := none, scrape_incomplete := none, source := none,
    tier := none, trackerid := none, updating := none, url := none,
    verified := none }

/-- A tracker entry with several attributes present. -/
def trackerB : EngTrackerEntry :=
  { complete_sent := some true, fail_limit := none, fails := some 2, message := none,
    min_announce := none, next_announce := none, scrape_complete := none,
    scrape_downloaded := none, scrape_incomplete := none, source := some "client",
    tier := some 1, trackerid := none, updating := none,
    url := some "http://tr.example/announce", verified := some true }

/-- A concrete engine report with two files and two trackers. -/
def engA : EngTorrentInfo :=
  { name := "sample", comment := "first", creation_date := 1, creator := "me",
    files := [fileA, fileB], is_i2p := false, is_merkle_torrent := false,
    is_valid := true, metadata_size := 100, nodes := [("router.example", 6881)],
    num_files := 2, num_pieces := 1, piece_length := 16384, priv := false,
    total_size := 12, trackers := [trackerA, trackerB],
    web_seeds := ["http://ws.example/"] }

/-- The same report with a different comment, standing for the engine's
report after the descriptor file changed on disk. -/
def engB : EngTorrentInfo :=
  { engA with comment := "second" }

/-- An engine whose parser always reports engA. -/
def ltA : LtEngine := fun _ => Except.ok engA

/-- An engine whose parser always reports engB. -/
def ltB : LtEngine := fun _ => Except.ok engB

/-- Claim C1 counterexample: set_download_limit(5) and set_upload_limit(5)
do not pass the caller's rate 5 to the engine; the single engine call each
issues carries 5 * 1024 = 5120. -/
theorem claim1_counterexample :
    (Session.set_download_limit behOk sess0 5).calls = [EngCall.set_download_rate_limit 5120] ∧
    (Session.set_upload_limit behOk sess0 5).calls = [EngCall.set_upload_rate_limit 5120] ∧
    (Session.set_download_limit behOk sess0 5).calls ≠ [EngCall.set_download_rate_limit 5] ∧
    (Session.set_upload_limit behOk sess0 5).calls ≠ [EngCall.set_upload_rate_limit 5] := by
  refine ⟨?_, ?_, ?_, ?_⟩ <;> decide

/-- Claim C1 (amended): set_download_limit(rate) and set_upload_limit(rate)
each issue exactly one engine call, carrying not the caller's rate but
limit_arg rate = int(-1 if rate == 0 else (1 if rate == -1 else
rate * 1024)), and on success return that stored mapped value rather than
the engine's result; other façade methods such as add_torrent issue exactly
one engine call with their argument unchanged and hand the engine's result
(or exception) back unchanged. -/
theorem claim1_forwarding :
    ∀ (beh : EngBeh) (st : SessionState) (rate : Int),
      (Session.set_download_limit beh st rate).calls =
          [EngCall.set_download_rate_limit (limit_arg rate)] ∧
      (Session.set_upload_limit beh st rate).calls =
          [EngCall.set_upload_rate_limit (limit_arg rate)] ∧
      (Session.set_download_limit beh st rate).result =
          (beh (EngCall.set_download_rate_limit (limit_arg rate))).map (fun _ => limit_arg rate) ∧
      (Session.set_upload_limit beh st rate).result =
          (beh (EngCall.set_upload_rate_limit (limit_arg rate))).map (fun _ => limit_arg rate) ∧
      (∀ ti, (Session.add_torrent beh st ti).calls = [EngCall.add_torrent ti] ∧
             (Session.add_torrent beh st ti).result = beh (EngCall.add_torrent ti)) := by
  intro beh st rate
  refine ⟨?_, ?_, ?_, ?_, ?_⟩
  · cases hb : beh (EngCall.set_download_rate_limit (limit_arg rate)) <;>
      simp [Session.set_download_limit, limit_arg] at hb ⊢ <;> rw [hb]
  · cases hb : beh (EngCall.set_upload_rate_limit (limit_arg rate)) <;>
      simp [Session.set_upload_limit, limit_arg] at hb ⊢ <;> rw [hb]
  · cases hb : beh (EngCall.set_download_rate_limit (limit_arg rate)) <;>
      simp [Session.set_download_limit, limit_arg, Except.map] at hb ⊢ <;> rw [hb]
  · cases hb : beh (EngCall.set_upload_rate_limit (limit_arg rate)) <;>
      simp [Session.set_upload_limit, limit_arg, Except.map] at hb ⊢ <;> rw [hb]
  · intro ti
    cases hb : beh (EngCall.add_torrent ti) <;>
      simp [Session.add_torrent, hb]

/-- Claim C2 counterexample: for the engine file entry fileA, whose
reported path is "a/b.txt", the produced record's file_name field is
"b.txt", which equals neither the engine-reported path nor the documented
empty-string default, so not every field of the record equals an
engine-reported attribute value or documented default. -/
theorem claim2_counterexample :
    ∃ r, (TorrentInfo.parse_file_info engA)[0]? = some r ∧
      fileA.path = "a/b.txt" ∧
      r.file_name = "b.txt" ∧
      r.file_name ≠ fileA.path ∧
      r.file_name ≠ "" := by
  refine ⟨_, rfl, rfl, ?_, ?_, ?_⟩ <;> decide

/-- Claim C2 (amended): every field of a TrackerInfo record equals the
engine-reported attribute value when the attribute is present and the
documented default when it is absent (False for boolean flags, 0 for
integer counters and tiers, the empty string for string fields); the same
holds for every FileInfo field except file_name, which instead holds the
basename (final path component) of the engine-reported path, with 0.0 as
the default modification time and the empty string as the default symlink
target. -/
theorem claim2_fields_mirror :
    ∀ (ti : EngTorrentInfo),
      (∀ (i : Nat) (t : EngTrackerEntry), ti.trackers[i]? = some t →
        ∃ r, (TorrentInfo.parse_tracker_info ti)[i]? = some r ∧
          r.complete_sent = t.complete_sent.getD false ∧
          r.fail_limit = t.fail_limit.getD 0 ∧
          r.fails = t.fails.getD 0 ∧
          r.message = t.message.getD "" ∧
          r.min_announce = t.min_announce.getD 0 ∧
          r.next_announce = t.next_announce.getD 0 ∧
          r.scrape_complete = t.scrape_complete.getD 0 ∧
          r.scrape_downloaded = t.scrape_downloaded.getD 0 ∧
          r.scrape_incomplete = t.scrape_incomplete.getD 0 ∧
          r.source = t.source.getD "" ∧
          r.tier = t.tier.getD 0 ∧
          r.trackerid = t.trackerid.getD "" ∧
          r.updating = t.updating.getD false ∧
          r.url = t.url.getD "" ∧
          r.verified = t.verified.getD false) ∧
      (∀ (i : Nat) (f : EngFileEntry), ti.files[i]? = some f →
        ∃ r, (TorrentInfo.parse_file_info ti)[i]? = some r ∧
          r.file_name = basename f.path ∧
          r.size = f.size ∧
          r.offset = f.offset ∧
          r.mtime = f.mtime.getD PyFloat.zero ∧
          r.executable_attribute = f.executable_attribute.getD false ∧
          r.hidden_attribute = f.hidden_attribute.getD false ∧
          r.pad_file = f.pad_file.getD false ∧
          r.path = f.path ∧
          r.symlink_attribute = f.symlink_attribute.getD false ∧
          r.symlink_path = f.symlink_path.getD "") := by
  intro ti
  constructor
  · intro i t h
    unfold TorrentInfo.parse_tracker_info
    rw [List.getElem?_map, h]
    exact ⟨_, rfl, rfl, rfl, rfl, rfl, rfl, rfl, rfl, rfl, rfl, rfl, rfl, rfl, rfl, rfl, rfl⟩
  · intro i f h
    unfold TorrentInfo.parse_file_info
    rw [List.getElem?_map, h]
    exact ⟨_, rfl, rfl, rfl, rfl, rfl, rfl, rfl, rfl, rfl, rfl, rfl⟩

/-- Claim C2 witness: instantiating the field-mirroring theorem at the
concrete report engA, index 0 of the trackers (all attributes absent,
defaults substituted) and index 0 of the files. -/
theorem claim2_witness :
    (∃ r, (TorrentInfo.parse_tracker_info engA)[0]? = some r ∧
      r.url = "" ∧ r.tier = 0 ∧ r.complete_sent = false ∧ r.message = "") ∧
    (∃ r, (TorrentInfo.parse_file_info engA)[0]? = some r ∧
      r.mtime = PyFloat.zero ∧ r.symlink_path = "" ∧ r.path = "a/b.txt") := by
  obtain ⟨ht, hf⟩ := claim2_fields_mirror engA
  obtain ⟨r0, h0, hcs, _, _, hmsg, _, _, _, _, _, _, htier, _, _, hurl, _⟩ := ht 0 trackerA rfl
  obtain ⟨rf, hfe, _, _, _, hm, _, _, _, hpa, _, hsp⟩ := hf 0 fileA rfl
  refine ⟨⟨r0, h0, hurl.trans rfl, htier.trans rfl, hcs.trans rfl, hmsg.trans rfl⟩,
          ⟨rf, hfe, hm.trans rfl, hsp.trans rfl, hpa.trans rfl⟩⟩

/-- Claim C4 counterexample: for the engine file entry fileB with path
"movies/cam.mkv" the produced record's path field mirrors the engine path,
but its file_name field is "cam.mkv", which differs from the engine path,
so the name field does not mirror the engine-reported path unmodified. -/
theorem claim4_counterexample :
    ∃ r, (TorrentInfo.parse_file_info engA)[1]? = some r ∧
      fileB.path = "movies/cam.mkv" ∧
      r.path = fileB.path ∧
      r.file_name = "cam.mkv" ∧
      r.file_name ≠ fileB.path := by
  refine ⟨_, rfl, rfl, rfl, ?_, ?_⟩ <;> decide

/-- Claim C4 (amended): for every engine-reported file entry, the record's
path field mirrors the engine-reported path without modification, while
the file_name field holds the basename (final path component) of that
path; no further transformation is applied. -/
theorem claim4_name_path :
    ∀ (ti : EngTorrentInfo) (i : Nat) (f : EngFileEntry), ti.files[i]? = some f →
      ∃ r, (TorrentInfo.parse_file_info ti)[i]? = some r ∧
        r.path = f.path ∧ r.file_name = basename f.path := by
  intro ti i f h
  unfold TorrentInfo.parse_file_info
  rw [List.getElem?_map, h]
  exact ⟨_, rfl, rfl, rfl⟩

/-- Claim C4 witness: the amended statement instantiated at the report
engB and its file entry at index 1. -/
theorem claim4_witness :
    ∃ r, (TorrentInfo.parse_file_info engB)[1]? = some r ∧
      r.path = fileB.path ∧ r.file_name = basename fileB.path :=
  claim4_name_path engB 1 fileB rfl

/-- Claim C3: every modelled façade operation of Session and TorrentInfo
raises exactly when the underlying engine call raises, and the exception
reaching the caller is the engine's exception unchanged; no operation
catches, translates, or enriches it. -/
theorem claim3_error_propagation :
    ∀ (beh : EngBeh) (st : SessionState) (ti : PyObj) (lt : LtEngine) (p : String)
      (tst : TorrentInfoState) (e : EngErr),
      ((Session.add_torrent beh st ti).result = Except.error e ↔
        beh (EngCall.add_torrent ti) = Except.error e) ∧
      ((Session.pause beh st).result = Except.error e ↔
        beh EngCall.pause = Except.error e) ∧
      ((Session.load_state beh st ti).result = Except.error e ↔
        beh (EngCall.load_state ti) = Except.error e) ∧
      (∀ rate, (Session.set_download_limit beh st rate).result = Except.error e ↔
        beh (EngCall.set_download_rate_limit (limit_arg rate)) = Except.error e) ∧
      (∀ rate, (Session.set_upload_limit beh st rate).result = Except.error e ↔
        beh (EngCall.set_upload_rate_limit (limit_arg rate)) = Except.error e) ∧
      (TorrentInfo.mk lt p = Except.error e ↔ lt p = Except.error e) ∧
      (TorrentInfo.create_torrent_info lt tst = Except.error e ↔ lt tst._path = Except.error e) ∧
      (TorrentInfo.info_as_dict lt tst = Except.error e ↔ lt tst._path = Except.error e) ∧
      (TorrentInfo.str lt tst = Except.error e ↔ lt tst._path = Except.error e) ∧
      (TorrentInfo.call lt tst = Except.error e ↔ lt tst._path = Except.error e) := by
  intro beh st ti lt p tst e
  refine ⟨?_, ?_, ?_, ?_, ?_, ?_, ?_, ?_, ?_, ?_⟩
  · cases hb : beh (EngCall.add_torrent ti) <;> simp [Session.add_torrent, hb]
  · cases hb : beh EngCall.pause <;> simp [Session.pause, hb]
  · cases hb : beh (EngCall.load_state ti) <;> simp [Session.load_state, hb]
  · intro rate
    cases hb : beh (EngCall.set_download_rate_limit (limit_arg rate)) <;>
      simp [Session.set_download_limit, limit_arg] at hb ⊢ <;> simp [hb]
  · intro rate
    cases hb : beh (EngCall.set_upload_rate_limit (limit_arg rate)) <;>
      simp [Session.set_upload_limit, limit_arg] at hb ⊢ <;> simp [hb]
  · cases hl : lt p <;> simp [TorrentInfo.mk, hl]
  · cases hl : lt tst._path <;> simp [TorrentInfo.create_torrent_info, hl]
  · cases hl : lt tst._path <;>
      simp [TorrentInfo.info_as_dict, TorrentInfo.create_torrent_info, hl]
  · cases hl : lt tst._path <;>
      simp [TorrentInfo.str, TorrentInfo.info_as_dict, TorrentInfo.create_torrent_info, hl]
  · cases hl : lt tst._path <;>
      simp [TorrentInfo.call, TorrentInfo.create_torrent_info, hl]

/-- Claim C5: create_torrent_info (and with it info_as_dict, the str
rendering and the call operation) parses the stored path anew with the
engine behaviour current at call time: the outcome is independent of the
parse stored at construction, so two instances constructed over the same
path from engines that reported differently behave identically under the
current engine. -/
theorem claim5_fresh_parse :
    ∀ (lt0 lt1 lt : LtEngine) (p : String) (st0 st1 : TorrentInfoState),
      TorrentInfo.mk lt0 p = Except.ok st0 →
      TorrentInfo.mk lt1 p = Except.ok st1 →
      TorrentInfo.create_torrent_info lt st0 = TorrentInfo.create_torrent_info lt st1 ∧
      TorrentInfo.info_as_dict lt st0 = TorrentInfo.info_as_dict lt st1 ∧
      TorrentInfo.str lt st0 = TorrentInfo.str lt st1 ∧
      TorrentInfo.call lt st0 = TorrentInfo.call lt st1 := by
  intro lt0 lt1 lt p st0 st1 h0 h1
  have hp0 : st0._path = p := by
    unfold TorrentInfo.mk at h0
    cases hl : lt0 p with
    | error e => rw [hl] at h0; cases h0
    | ok i => rw [hl] at h0; cases h0; rfl
  have hp1 : st1._path = p := by
    unfold TorrentInfo.mk at h1
    cases hl : lt1 p with
    | error e => rw [hl] at h1; cases h1
    | ok i => rw [hl] at h1; cases h1; rfl
  have hc : TorrentInfo.create_torrent_info lt st0 = TorrentInfo.create_torrent_info lt st1 := by
    unfold TorrentInfo.create_torrent_info
    rw [hp0, hp1]
  refine ⟨hc, ?_, ?_, ?_⟩
  · unfold TorrentInfo.info_as_dict
    rw [hc]
  · unfold TorrentInfo.str TorrentInfo.info_as_dict
    rw [hc]
  · unfold TorrentInfo.call
    exact hc

/-- Claim C5 witness: two instances over the same path, one constructed
while the engine reported engA, one while it reported engB, behave
identically under the current engine ltB, and the call operation on the
instance that stored engA returns the record built from the current
report engB (comment "second"), not from the stored parse. -/
theorem claim5_witness :
    TorrentInfo.create_torrent_info ltB { _path := "file.torrent", _info := engA } =
      TorrentInfo.create_torrent_info ltB { _path := "file.torrent", _info := engB } ∧
    TorrentInfo.info_as_dict ltB { _path := "file.torrent", _info := engA } =
      TorrentInfo.info_as_dict ltB { _path := "file.torrent", _info := engB } ∧
    TorrentInfo.str ltB { _path := "file.torrent", _info := engA } =
      TorrentInfo.str ltB { _path := "file.torrent", _info := engB } ∧
    TorrentInfo.call ltB { _path := "file.torrent", _info := engA } =
      TorrentInfo.call ltB { _path := "file.torrent", _info := engB } ∧
    (∃ i, TorrentInfo.call ltB { _path := "file.torrent", _info := engA } = Except.ok i ∧
      i.comment = "second" ∧ engA.comment = "first") := by
  have h := claim5_fresh_parse ltA ltB ltB "file.torrent"
    { _path := "file.torrent", _info := engA } { _path := "file.torrent", _info := engB } rfl rfl
  exact ⟨h.1, h.2.1, h.2.2.1, h.2.2.2, ⟨_, rfl, rfl, rfl⟩⟩

/-- Claim C6: the files_list and trackers collections are ordered
projections of the engine report: same length as the engine's files()
respectively trackers() sequence, defined at exactly the same indices, and
the record at index i is built from the engine entry at index i. -/
theorem claim6_ordered_projection :
    ∀ (ti : EngTorrentInfo),
      (TorrentInfo.parse_file_info ti).length = ti.files.length ∧
      (TorrentInfo.parse_tracker_info ti).length = ti.trackers.length ∧
      (∀ i : Nat, ((TorrentInfo.parse_file_info ti)[i]?).isSome = (ti.files[i]?).isSome) ∧
      (∀ i : Nat, ((TorrentInfo.parse_tracker_info ti)[i]?).isSome = (ti.trackers[i]?).isSome) ∧
      (∀ (i : Nat) (f : EngFileEntry), ti.files[i]? = some f →
        ∃ r, (TorrentInfo.parse_file_info ti)[i]? = some r ∧
          r.path = f.path ∧ r.offset = f.offset ∧ r.size = f.size) ∧
      (∀ (i : Nat) (t : EngTrackerEntry), ti.trackers[i]? = some t →
        ∃ r, (TorrentInfo.parse_tracker_info ti)[i]? = some r ∧
          r.url = t.url.getD "" ∧ r.tier = t.tier.getD 0) := by
  intro ti
  refine ⟨?_, ?_, ?_, ?_, ?_, ?_⟩
  · simp [TorrentInfo.parse_file_info]
  · simp [TorrentInfo.parse_tracker_info]
  · intro i
    unfold TorrentInfo.parse_file_info
    rw [List.getElem?_map]
    exact Option.isSome_map
  · intro i
    unfold TorrentInfo.parse_tracker_info
    rw [List.getElem?_map]
    exact Option.isSome_map
  · intro i f h
    unfold TorrentInfo.parse_file_info
    rw [List.getElem?_map, h]
    exact ⟨_, rfl, rfl, rfl, rfl⟩
  · intro i t h
    unfold TorrentInfo.parse_tracker_info
    rw [List.getElem?_map, h]
    exact ⟨_, rfl, rfl, rfl⟩

/-- Claim C6 witness: the ordered-projection theorem instantiated at the
two-file, two-tracker report engA and its entries at index 1. -/
theorem claim6_witness :
    (TorrentInfo.parse_file_info engA).length = 2 ∧
    (TorrentInfo.parse_tracker_info engA).length = 2 ∧
    (∃ r, (TorrentInfo.parse_file_info engA)[1]? = some r ∧
      r.path = "movies/cam.mkv" ∧ r.offset = 5 ∧ r.size = 7) ∧
    (∃ r, (TorrentInfo.parse_tracker_info engA)[1]? = some r ∧
      r.url = "http://tr.example/announce" ∧ r.tier = 1) := by
  obtain ⟨hfl, htl, _, _, hf, ht⟩ := claim6_ordered_projection engA
  obtain ⟨rf, e1, e2, e3, e4⟩ := hf 1 fileB rfl
  obtain ⟨rt, g1, g2, g3⟩ := ht 1 trackerB rfl
  exact ⟨hfl.trans rfl, htl.trans rfl,
    ⟨rf, e1, e2.trans rfl, e3.trans rfl, e4.trans rfl⟩,
    ⟨rt, g1, g2.trans rfl, g3.trans rfl⟩⟩

/-- Claim C7: the TorrentInfo façade operations never mutate anything they
produced: every operation leaves the façade's attribute state unchanged,
and records are plain values built afresh on each call (no Python method
body assigns to self or to a field of a FileInfo, TrackerInfo, or Info
record after construction), so a record obtained earlier can never be
changed by a later façade operation. -/
theorem claim7_records_immutable :
    ∀ (lt : LtEngine) (st : TorrentInfoState) (op : TIOp),
      (TorrentInfo.run lt st op).1 = st := by
  intro lt st op
  cases op <;> rfl

/-- Claim C8: Session.__init__ stores each configuration argument in its
own attribute, and when no engine session is supplied it creates one whose
listen_interfaces configuration string joins the stored listen address and
port as listen_interfaces:port; the create_session method does exactly the
same on the current attribute values, storing the created session. -/
theorem claim8_config_storage :
    ∀ (ua li : String) (port dl ul : Int),
      ((Session.init ua li port dl ul none)._user_agent = ua ∧
       (Session.init ua li port dl ul none)._listen_interfaces = li ∧
       (Session.init ua li port dl ul none)._port = port ∧
       (Session.init ua li port dl ul none)._download_rate_limit = dl ∧
       (Session.init ua li port dl ul none)._upload_rate_limit = ul ∧
       (Session.init ua li port dl ul none)._session =
         lt_session (li ++ ":" ++ toString port)) ∧
      (∀ s : EngSession,
       (Session.init ua li port dl ul (some s))._user_agent = ua ∧
       (Session.init ua li port dl ul (some s))._listen_interfaces = li ∧
       (Session.init ua li port dl ul (some s))._port = port ∧
       (Session.init ua li port dl ul (some s))._download_rate_limit = dl ∧
       (Session.init ua li port dl ul (some s))._upload_rate_limit = ul ∧
       (Session.init ua li port dl ul (some s))._session = s) ∧
      (∀ st : SessionState,
        (Session.create_session st).2 =
          lt_session (st._listen_interfaces ++ ":" ++ toString st._port) ∧
        (Session.create_session st).1 =
          { st with _session := (Session.create_session st).2 }) := by
  intro ua li port dl ul
  exact ⟨⟨rfl, rfl, rfl, rfl, rfl, rfl⟩,
         fun s => ⟨rfl, rfl, rfl, rfl, rfl, rfl⟩,
         fun st => ⟨rfl, rfl⟩⟩

/-- Claim C9: each void-delegating Session method (pause, resume,
start_dht, stop_dht, start_lsd, stop_lsd, start_natpmp, start_upnp,
load_state, apply_settings, add_dht_node, set_ip_filter) returns the
constant True whenever its engine call returns without raising, whatever
object the engine call returned. -/
theorem claim9_void_returns_true :
    ∀ (beh : EngBeh) (st : SessionState) (v : PyObj),
      (beh EngCall.pause = Except.ok v → (Session.pause beh st).result = Except.ok true) ∧
      (beh EngCall.resume = Except.ok v → (Session.resume beh st).result = Except.ok true) ∧
      (beh EngCall.start_dht = Except.ok v → (Session.start_dht beh st).result = Except.ok true) ∧
      (beh EngCall.stop_dht = Except.ok v → (Session.stop_dht beh st).result = Except.ok true) ∧
      (beh EngCall.start_lsd = Except.ok v → (Session.start_lsd beh st).result = Except.ok true) ∧
      (beh EngCall.stop_lsd = Except.ok v → (Session.stop_lsd beh st).result = Except.ok true) ∧
      (beh EngCall.start_natpmp = Except.ok v → (Session.start_natpmp beh st).result = Except.ok true) ∧
      (beh EngCall.start_upnp = Except.ok v → (Session.start_upnp beh st).result = Except.ok true) ∧
      (∀ s, beh (EngCall.load_state s) = Except.ok v →
        (Session.load_state beh st s).result = Except.ok true) ∧
      (∀ s, beh (EngCall.apply_settings s) = Except.ok v →
        (Session.apply_settings beh st s).result = Except.ok true) ∧
      (∀ n, beh (EngCall.add_dht_node n) = Except.ok v →
        (Session.add_dht_node beh st n).result = Except.ok true) ∧
      (∀ f, beh (EngCall.set_ip_filter f) = Except.ok v →
        (Session.set_ip_filter beh st f).result = Except.ok true) := by
  intro beh st v
  refine ⟨fun h => ?_, fun h => ?_, fun h => ?_, fun h => ?_, fun h => ?_, fun h => ?_,
          fun h => ?_, fun h => ?_, fun s h => ?_, fun s h => ?_, fun n h => ?_, fun f h => ?_⟩
  · simp [Session.pause, h]
  · simp [Session.resume, h]
  · simp [Session.start_dht, h]
  · simp [Session.stop_dht, h]
  · simp [Session.start_lsd, h]
  · simp [Session.stop_lsd, h]
  · simp [Session.start_natpmp, h]
  · simp [Session.start_upnp, h]
  · simp [Session.load_state, h]
  · simp [Session.apply_settings, h]
  · simp [Session.add_dht_node, h]
  · simp [Session.set_ip_filter, h]

/-- Claim C9 witness: under the always-succeeding engine behaviour, every
listed method applied to the default session returns True. -/
theorem claim9_witness :
    (Session.pause behOk sess0).result = Except.ok true ∧
    (Session.resume behOk sess0).result = Except.ok true ∧
    (Session.start_dht behOk sess0).result = Except.ok true ∧
    (Session.stop_dht behOk sess0).result = Except.ok true ∧
    (Session.start_lsd behOk sess0).result = Except.ok true ∧
    (Session.stop_lsd behOk sess0).result = Except.ok true ∧
    (Session.start_natpmp behOk sess0).result = Except.ok true ∧
    (Session.start_upnp behOk sess0).result = Except.ok true ∧
    (Session.load_state behOk sess0 obj0).result = Except.ok true ∧
    (Session.apply_settings behOk sess0 obj0).result = Except.ok true ∧
    (Session.add_dht_node behOk sess0 obj0).result = Except.ok true ∧
    (Session.set_ip_filter behOk sess0 obj0).result = Except.ok true := by
  obtain ⟨h1, h2, h3, h4, h5, h6, h7, h8, h9, h10, h11, h12⟩ :=
    claim9_void_returns_true behOk sess0 obj0
  exact ⟨h1 rfl, h2 rfl, h3 rfl, h4 rfl, h5 rfl, h6 rfl, h7 rfl, h8 rfl,
         h9 obj0 rfl, h10 obj0 rfl, h11 obj0 rfl, h12 obj0 rfl⟩

/-- Claim C10: set_upload_limit changes only the cached upload rate limit
attribute: user agent, listen interfaces, port, download rate limit and
the stored engine-session reference are all unchanged, whether or not the
engine call raises; symmetrically for set_download_limit. -/
theorem claim10_frame :
    ∀ (beh : EngBeh) (st : SessionState) (rate : Int),
      ((Session.set_upload_limit beh st rate).state._user_agent = st._user_agent ∧
       (Session.set_upload_limit beh st rate).state._listen_interfaces = st._listen_interfaces ∧
       (Session.set_upload_limit beh st rate).state._port = st._port ∧
       (Session.set_upload_limit beh st rate).state._download_rate_limit = st._download_rate_limit ∧
       (Session.set_upload_limit beh st rate).state._session = st._session) ∧
      ((Session.set_download_limit beh st rate).state._user_agent = st._user_agent ∧
       (Session.set_download_limit beh st rate).state._listen_interfaces = st._listen_interfaces ∧
       (Session.set_download_limit beh st rate).state._port = st._port ∧
       (Session.set_download_limit beh st rate).state._upload_rate_limit = st._upload_rate_limit ∧
       (Session.set_download_limit beh st rate).state._session = st._session) := by
  intro beh st rate
  have hu : (Session.set_upload_limit beh st rate).state =
      { st with _upload_rate_limit := limit_arg rate } := by
    cases hb : beh (EngCall.set_upload_rate_limit (limit_arg rate)) <;>
      simp [Session.set_upload_limit, limit_arg] at hb ⊢ <;> rw [hb]
  have hd : (Session.set_download_limit beh st rate).state =
      { st with _download_rate_limit := limit_arg rate } := by
    cases hb : beh (EngCall.set_download_rate_limit (limit_arg rate)) <;>
      simp [Session.set_download_limit, limit_arg] at hb ⊢ <;> rw [hb]
  rw [hu, hd]
  exact ⟨⟨rfl, rfl, rfl, rfl, rfl⟩, ⟨rfl, rfl, rfl, rfl, rfl⟩⟩

end Pytorrent
